import Mathlib

/-
Shallow embedding of the LanceDB / LanceDBCloud benchmark adapters of
VectorDBBench:

  vectordb_bench/backend/clients/lancedb/config.py         (LanceDBIndexConfig)
  vectordb_bench/backend/clients/lancedb/lancedb.py        (LanceDB)
  vectordb_bench/backend/clients/lancedb_cloud/config.py   (LanceDBCloudIndexConfig)
  vectordb_bench/backend/clients/lancedb_cloud/lancedb_cloud.py (LanceDBCloud)

The adapters are glue around an external vector-store collaborator.  The
embedding models the collaborator-visible effects: the store of named
tables with schemas and rows, the queries the adapters build, and the
collaborator calls they issue.  Vector contents are irrelevant to every
claim (only lengths and identity matter), so embeddings are represented
by `List Int` stand-ins rather than floating-point lists.
-/

/-- Modelled from the spec: the abstract metric enum `MetricType` lives in
`vectordb_bench/backend/clients/api.py`, which is not part of the shown
sources.  The spec declares its domain as L2 | InnerProduct | Cosine
(`IP` is the source's name for inner product). -/
inductive MetricType
  | L2
  | COSINE
  | IP
deriving DecidableEq, Repr

/-- `LanceDBIndexConfig` (lancedb/config.py): pydantic model with the
field defaults written in the source. -/
structure LanceDBIndexConfig where
  metric_type : Option MetricType := none
  num_partitions : Option Int := some 256
  num_sub_vectors : Option Int := some 96
  nprobes : Option Int := some 0
  refine_factor : Option Int := some 0
deriving DecidableEq, Repr

/-- `LanceDBIndexConfig.parse_metric` (lancedb/config.py lines 17-22). -/
def LanceDBIndexConfig.parse_metric (c : LanceDBIndexConfig) : String :=
  if c.metric_type = some MetricType.L2 then "L2"
  else if c.metric_type = some MetricType.IP then "dot"
  else "cosine"

/-- The dict returned by `index_param()`: keys metric, num_partitions,
num_sub_vectors, each always present. -/
structure IndexParam where
  metric : String
  num_partitions : Option Int
  num_sub_vectors : Option Int
deriving DecidableEq, Repr

/-- `LanceDBIndexConfig.index_param` (lancedb/config.py lines 24-29). -/
def LanceDBIndexConfig.index_param (c : LanceDBIndexConfig) : IndexParam :=
  { metric := c.parse_metric,
    num_partitions := c.num_partitions,
    num_sub_vectors := c.num_sub_vectors }

/-- The dict returned by the local variant's `search_param()`: keys
metric, nprobes, refine_factor. -/
structure SearchParam where
  metric : String
  nprobes : Option Int
  refine_factor : Option Int
deriving DecidableEq, Repr

/-- `LanceDBIndexConfig.search_param` (lancedb/config.py lines 31-36). -/
def LanceDBIndexConfig.search_param (c : LanceDBIndexConfig) : SearchParam :=
  { metric := c.parse_metric,
    nprobes := c.nprobes,
    refine_factor := c.refine_factor }

/-- `LanceDBCloudIndexConfig` (lancedb_cloud/config.py): same fields as
the local variant except that it has no `refine_factor` field. -/
structure LanceDBCloudIndexConfig where
  metric_type : Option MetricType := none
  num_partitions : Option Int := some 256
  num_sub_vectors : Option Int := some 96
  nprobes : Option Int := some 0
deriving DecidableEq, Repr

/-- `LanceDBCloudIndexConfig.parse_metric` (lancedb_cloud/config.py lines 18-23). -/
def LanceDBCloudIndexConfig.parse_metric (c : LanceDBCloudIndexConfig) : String :=
  if c.metric_type = some MetricType.L2 then "L2"
  else if c.metric_type = some MetricType.IP then "dot"
  else "cosine"

/-- `LanceDBCloudIndexConfig.index_param` (lancedb_cloud/config.py lines 25-30). -/
def LanceDBCloudIndexConfig.index_param (c : LanceDBCloudIndexConfig) : IndexParam :=
  { metric := c.parse_metric,
    num_partitions := c.num_partitions,
    num_sub_vectors := c.num_sub_vectors }

/-- The dict returned by the cloud variant's `search_param()`: keys
metric and nprobes only (lancedb_cloud/config.py lines 32-36). -/
structure CloudSearchParam where
  metric : String
  nprobes : Option Int
deriving DecidableEq, Repr

/-- `LanceDBCloudIndexConfig.search_param` (lancedb_cloud/config.py lines 32-36). -/
def LanceDBCloudIndexConfig.search_param (c : LanceDBCloudIndexConfig) : CloudSearchParam :=
  { metric := c.parse_metric,
    nprobes := c.nprobes }

/-- pyarrow data types used by the adapters' schema. -/
inductive PaType
  | int32
  | float32
  | fixedSizeList (elem : PaType) (width : Nat)
deriving DecidableEq, Repr

/-- A pyarrow schema: an ordered list of (field name, type) pairs. -/
structure Schema where
  fields : List (String × PaType)
deriving DecidableEq, Repr

/-- A collaborator-side table: its schema and its rows.  Row contents are
irrelevant to the claims, so a row is an abstract `Int` marker. -/
structure Table where
  schema : Schema
  rows : List Int
deriving DecidableEq, Repr

/-- The collaborator's store: named tables, as observed through
`table_names` / `drop_table` / `create_table`. -/
abbrev Store := List (String × Table)

/-- `db.table_names()`. -/
def table_names (db : Store) : List String :=
  db.map Prod.fst

/-- `db.drop_table(name)`: removes the named table (and all its rows). -/
def drop_table (db : Store) (name : String) : Store :=
  db.filter (fun t => t.1 ≠ name)

/-- `db.create_table(name, schema)`: adds a fresh, empty table. -/
def create_table (db : Store) (name : String) (schema : Schema) : Store :=
  db ++ [(name, { schema := schema, rows := [] })]

/-- `self._scalar_field` in both adapters. -/
def scalar_field : String := "id"

/-- `self._vector_field` in both adapters. -/
def vector_field : String := "vector"

/-- The two-field schema built in both constructors:
`pa.schema([(id, int32), (vector, fixed_size_list(float32, dim))])`. -/
def benchSchema (dim : Nat) : Schema :=
  { fields := [(scalar_field, PaType.int32),
               (vector_field, PaType.fixedSizeList PaType.float32 dim)] }

/-- Store effect of `LanceDB.__init__` (lancedb/lancedb.py lines 38-47):
drop the collection when `drop_old` holds and it exists, then create it
when absent. -/
def LanceDB.construct (db : Store) (dim : Nat) (collection_name : String)
    (drop_old : Bool) : Store :=
  let db1 := if drop_old && (table_names db).contains collection_name then
      drop_table db collection_name
    else db
  if (table_names db1).contains collection_name then db1
  else create_table db1 collection_name (benchSchema dim)

/-- Store effect of `LanceDBCloud.__init__` (lancedb_cloud/lancedb_cloud.py
lines 39-49).  In the source the `if drop_old and ...` guard is commented
out, so `db.drop_table(collection_name)` runs unconditionally; the
`drop_old` argument is never consulted. -/
def LanceDBCloud.construct (db : Store) (dim : Nat) (collection_name : String)
    (drop_old : Bool) : Store :=
  let db1 := drop_table db collection_name
  if (table_names db1).contains collection_name then db1
  else create_table db1 collection_name (benchSchema dim)

/-- The state of the `self.tbl` attribute: absent (never assigned, or
deleted by `del(self.tbl)`), or present holding `None` or an open table. -/
inductive Attr
  | absent
  | present (v : Option Table)
deriving DecidableEq, Repr

/-- The handle counts as released when it no longer holds an open table. -/
def Attr.released : Attr → Bool
  | Attr.present (some _) => false
  | _ => true

/-- The Python exceptions the adapters can raise themselves:
`assert` failures and attribute errors (`self.tbl` missing, or a method
looked up on `None`). -/
inductive PyError
  | assertionError
  | attributeError
deriving DecidableEq, Repr

/-- `self.tbl` after `LanceDB.init` (lancedb/lancedb.py lines 56-72) runs
with a body that either returns normally or raises.  The generator has no
try/finally: when the body raises, the exception is re-raised at the
`yield` and the two statements after it (`self.tbl = None; del(self.tbl)`)
never execute, so the attribute keeps the open table.  On a normal return
they run, leaving the attribute deleted. -/
def LanceDB.initScope (t : Table) (bodyRaises : Bool) : Attr :=
  let tblOpened : Attr := Attr.present (some t)
  if bodyRaises then tblOpened
  else Attr.absent

/-- `self.tbl` after `LanceDBCloud.init` (lancedb_cloud/lancedb_cloud.py
lines 59-77): identical handling of `self.tbl`; the extra `db = None;
del(db)` lines only touch a local variable. -/
def LanceDBCloud.initScope (t : Table) (bodyRaises : Bool) : Attr :=
  let tblOpened : Attr := Attr.present (some t)
  if bodyRaises then tblOpened
  else Attr.absent

/-- Calls the adapters issue to the open collection handle. -/
inductive CollCall
  | createIndex (metric : String) (num_partitions : Option Int)
      (num_sub_vectors : Option Int)
deriving DecidableEq, Repr

/-- `LanceDB.optimize` (lancedb/lancedb.py lines 77-80): asserts
`self.tbl is not None` then calls `create_index` with the values of
`index_param()`.  With the attribute absent the `assert` line itself
raises AttributeError; with it `None` the assert fails. -/
def LanceDB.optimize (cfg : LanceDBIndexConfig) (tbl : Attr) :
    Except PyError (List CollCall) :=
  match tbl with
  | Attr.absent => Except.error PyError.attributeError
  | Attr.present none => Except.error PyError.assertionError
  | Attr.present (some _) =>
      Except.ok [CollCall.createIndex cfg.index_param.metric
        cfg.index_param.num_partitions cfg.index_param.num_sub_vectors]

/-- `LanceDBCloud.optimize` (lancedb_cloud/lancedb_cloud.py lines 82-87):
same assertion, but the `self.tbl.create_index(...)` line is commented out
in the source, so no collaborator call is issued. -/
def LanceDBCloud.optimize (cfg : LanceDBCloudIndexConfig) (tbl : Attr) :
    Except PyError (List CollCall) :=
  match tbl with
  | Attr.absent => Except.error PyError.attributeError
  | Attr.present none => Except.error PyError.assertionError
  | Attr.present (some _) => Except.ok []

/-- Stand-in for one embedding vector (`list[float]` in the source; the
numeric contents never matter to the claims). -/
abbrev Embedding := List Int

/-- One record of the batch passed to `tbl.add`:
`{vector_field: e[0], scalar_field: e[1]}`. -/
structure Record where
  vector : Embedding
  id : Int
deriving DecidableEq, Repr

/-- The list comprehension in `insert_embeddings`:
`[{vector: e[0], id: e[1]} for e in zip(embeddings, metadata)]`. -/
def zipRecords (embeddings : List Embedding) (metadata : List Int) :
    List Record :=
  (embeddings.zip metadata).map (fun e => { vector := e.1, id := e.2 })

/-- `LanceDB.insert_embeddings` (lancedb/lancedb.py lines 85-109).
`addOutcome` is the collaborator's response to `tbl.add`; the first
component of the result lists the batches actually submitted to the
collaborator, the second is the call's own outcome.  The two asserts run
before the `try` block; a caught `tbl.add` failure is returned as
`(0, some err)`, success as `(len(embeddings), none)`. -/
def LanceDB.insert_embeddings (tbl : Attr) (addOutcome : Except String Unit)
    (embeddings : List Embedding) (metadata : List Int) :
    List (List Record) × Except PyError (Nat × Option String) :=
  match tbl with
  | Attr.absent => ([], Except.error PyError.attributeError)
  | Attr.present none => ([], Except.error PyError.assertionError)
  | Attr.present (some _) =>
    if embeddings.length = metadata.length then
      let batch := zipRecords embeddings metadata
      match addOutcome with
      | Except.error e => ([batch], Except.ok (0, some e))
      | Except.ok _ => ([batch], Except.ok (embeddings.length, none))
    else ([], Except.error PyError.assertionError)

/-- The `filters` argument of `search_embedding`: an optional Python dict
(string keys, string condition values). -/
abbrev Filters := List (String × String)

/-- Python truthiness of `filters` in `if filters:`: `None` and the empty
dict are falsy, a non-empty dict is truthy. -/
def filtersTruthy (filters : Option Filters) : Bool :=
  match filters with
  | none => false
  | some d => !d.isEmpty

/-- `d.get(key)` on a Python dict. -/
def dictGet (d : Filters) (key : String) : Option String :=
  (d.find? (fun p => p.1 == key)).map Prod.snd

/-- `filters.get(key)` where `filters` may be `None` (only reached on the
truthy branch, where it is a non-empty dict). -/
def pyDictGet (filters : Option Filters) (key : String) : Option String :=
  match filters with
  | none => none
  | some d => dictGet d key

/-- f-string rendering of a possibly-missing dict value, as in
`f"{self._scalar_field} {filters.get('metadata')}"`. -/
def pyStr (v : Option String) : String :=
  match v with
  | some s => s
  | none => "None"

/-- The query the adapters build by chaining
`search / metric / nprobes / refine_factor / limit / select / where` on
the open table.  For `nprobes` and `refineFactor` the outer `Option`
records whether the method was invoked at all, the inner value is the
argument it received (itself a dict `get`, hence optional). -/
structure Query where
  vector : Embedding
  metric : Option String := none
  nprobes : Option (Option Int) := none
  refineFactor : Option (Option Int) := none
  limit : Option Int := none
  select : Option (List String) := none
  whereExpr : Option String := none
deriving DecidableEq, Repr

/-- `LanceDB.search_embedding` (lancedb/lancedb.py lines 111-145): the
query submitted to the collaborator.  There is no assertion on
`self.tbl`; with the attribute absent or `None` the chained call raises
AttributeError.  The filtered branch sets the metric from `index_param()`,
applies `where`, and skips nprobes/refine_factor; the unfiltered branch
uses `search_param()` for metric, nprobes and refine_factor. -/
def LanceDB.search_embedding (cfg : LanceDBIndexConfig) (tbl : Attr)
    (query : Embedding) (k : Int) (filters : Option Filters) :
    Except PyError Query :=
  match tbl with
  | Attr.present (some _) =>
    if filtersTruthy filters then
      Except.ok
        { vector := query,
          metric := some cfg.index_param.metric,
          limit := some k,
          select := some [scalar_field],
          whereExpr := some (scalar_field ++ " " ++ pyStr (pyDictGet filters "metadata")) }
    else
      Except.ok
        { vector := query,
          metric := some cfg.search_param.metric,
          nprobes := some cfg.search_param.nprobes,
          refineFactor := some cfg.search_param.refine_factor,
          limit := some k,
          select := some [scalar_field] }
  | _ => Except.error PyError.attributeError

/-- `LanceDBCloud.search_embedding` (lancedb_cloud/lancedb_cloud.py lines
118-151): same shape, but the unfiltered branch's `.nprobes(...)` call is
commented out in the source and the cloud variant never calls
`.refine_factor(...)`. -/
def LanceDBCloud.search_embedding (cfg : LanceDBCloudIndexConfig) (tbl : Attr)
    (query : Embedding) (k : Int) (filters : Option Filters) :
    Except PyError Query :=
  match tbl with
  | Attr.present (some _) =>
    if filtersTruthy filters then
      Except.ok
        { vector := query,
          metric := some cfg.index_param.metric,
          limit := some k,
          select := some [scalar_field],
          whereExpr := some (scalar_field ++ " " ++ pyStr (pyDictGet filters "metadata")) }
    else
      Except.ok
        { vector := query,
          metric := some cfg.search_param.metric,
          limit := some k,
          select := some [scalar_field] }
  | _ => Except.error PyError.attributeError

/-- `search_embedding`'s return value
`res.column(self._scalar_field).to_pylist()`: the collaborator (here
`execQuery`, the id column of the result set in the collaborator's
ranking order) is applied to the built query and returned unchanged. -/
def LanceDB.search_run (cfg : LanceDBIndexConfig) (tbl : Attr)
    (execQuery : Query → List Int) (query : Embedding) (k : Int)
    (filters : Option Filters) : Except PyError (List Int) :=
  (LanceDB.search_embedding cfg tbl query k filters).map (fun q => execQuery q)

/-- Cloud counterpart of `LanceDB.search_run`. -/
def LanceDBCloud.search_run (cfg : LanceDBCloudIndexConfig) (tbl : Attr)
    (execQuery : Query → List Int) (query : Embedding) (k : Int)
    (filters : Option Filters) : Except PyError (List Int) :=
  (LanceDBCloud.search_embedding cfg tbl query k filters).map (fun q => execQuery q)

/-- A config with every field at its declared default. -/
def cfgLocalDefault : LanceDBIndexConfig := {}

/-- A cloud config with every field at its declared default. -/
def cfgCloudDefault : LanceDBCloudIndexConfig := {}

/-- A sample open table for concrete evaluations. -/
def tblSample : Table := { schema := benchSchema 4, rows := [] }

/-- A store already holding the target collection with one row of data. -/
def storeWithData : Store :=
  [("VectorDBBenchCollection", { schema := benchSchema 4, rows := [7] })]

/-- `LanceDBCloud.insert_embeddings` (lancedb_cloud/lancedb_cloud.py
lines 92-116): textually identical to the local variant. -/
def LanceDBCloud.insert_embeddings (tbl : Attr) (addOutcome : Except String Unit)
    (embeddings : List Embedding) (metadata : List Int) :
    List (List Record) × Except PyError (Nat × Option String) :=
  match tbl with
  | Attr.absent => ([], Except.error PyError.attributeError)
  | Attr.present none => ([], Except.error PyError.assertionError)
  | Attr.present (some _) =>
    if embeddings.length = metadata.length then
      let batch := zipRecords embeddings metadata
      match addOutcome with
      | Except.error e => ([batch], Except.ok (0, some e))
      | Except.ok _ => ([batch], Except.ok (embeddings.length, none))
    else ([], Except.error PyError.assertionError)

/-- C1: the local `LanceDB` constructor honours `drop_old` (with
`drop_old = false` an existing collection and its rows are untouched;
with `drop_old = true` it is dropped and recreated empty), but the
`LanceDBCloud` constructor drops the existing collection even with
`drop_old = false`, recreating it empty and losing its rows: evaluation
of both constructors on a store that already holds the target
collection with one row. -/
theorem claim_C1_eval :
    LanceDB.construct storeWithData 4 "VectorDBBenchCollection" false = storeWithData ∧
    LanceDB.construct storeWithData 4 "VectorDBBenchCollection" true =
      [("VectorDBBenchCollection", { schema := benchSchema 4, rows := [] })] ∧
    LanceDBCloud.construct storeWithData 4 "VectorDBBenchCollection" false =
      [("VectorDBBenchCollection", { schema := benchSchema 4, rows := [] })] := by
  refine ⟨?_, ?_, ?_⟩ <;> decide

/-- C2 counterexample: when the caller-supplied body raises, the
`init` scope of either variant returns control with `self.tbl` still
holding the open table — the handle is not released on that exit path. -/
theorem claim_C2_counterexample :
    (LanceDB.initScope tblSample true).released = false ∧
    (LanceDBCloud.initScope tblSample true).released = false :=
  ⟨rfl, rfl⟩

/-- C2 amended: in both variants the `init` scope releases the table
handle (the attribute is set to `None` and then deleted) on a normal
return of the body; when the body raises, the statements after the
`yield` do not run and the handle remains set to the open table. -/
theorem claim_C2_amended (t : Table) :
    LanceDB.initScope t false = Attr.absent ∧
    LanceDB.initScope t true = Attr.present (some t) ∧
    LanceDBCloud.initScope t false = Attr.absent ∧
    LanceDBCloud.initScope t true = Attr.present (some t) :=
  ⟨rfl, rfl, rfl, rfl⟩

/-- C3 counterexample: `LanceDBCloud.optimize` called inside an open
scope with the default configuration issues no build-index call at all
(the `create_index` line is commented out in the source), refuting the
claim that both variants issue a build-index call with the
`indexParams()` values. -/
theorem claim_C3_counterexample :
    ¬ ∃ calls, LanceDBCloud.optimize cfgCloudDefault (Attr.present (some tblSample)) =
        Except.ok calls ∧
      CollCall.createIndex cfgCloudDefault.index_param.metric
        cfgCloudDefault.index_param.num_partitions
        cfgCloudDefault.index_param.num_sub_vectors ∈ calls := by
  rintro ⟨calls, hEq, hMem⟩
  have h : calls = [] := by
    simpa [LanceDBCloud.optimize] using hEq.symm
  subst h
  exact List.not_mem_nil _ hMem

/-- C3 amended: both variants' `optimize` assert that the collection
handle is non-empty; the local `LanceDB.optimize` then issues exactly one
build-index call carrying the `indexParams()` values (metric token,
partition count, sub-vector count), while `LanceDBCloud.optimize` issues
no collaborator call (its build-index call is disabled in the source). -/
theorem claim_C3_amended (cfg : LanceDBIndexConfig) (ccfg : LanceDBCloudIndexConfig)
    (t : Table) :
    LanceDB.optimize cfg (Attr.present (some t)) =
      Except.ok [CollCall.createIndex cfg.index_param.metric
        cfg.index_param.num_partitions cfg.index_param.num_sub_vectors] ∧
    LanceDB.optimize cfg (Attr.present none) = Except.error PyError.assertionError ∧
    LanceDBCloud.optimize ccfg (Attr.present (some t)) = Except.ok [] ∧
    LanceDBCloud.optimize ccfg (Attr.present none) = Except.error PyError.assertionError :=
  ⟨rfl, rfl, rfl, rfl⟩

/-- C4 counterexample: in the cloud variant an unfiltered
`search_embedding` submits a query whose probe count is never set (the
`.nprobes(...)` call is commented out in the source), refuting the claim
that both variants set the probe count from `searchParams()`. -/
theorem claim_C4_counterexample :
    ¬ ∃ q, LanceDBCloud.search_embedding cfgCloudDefault (Attr.present (some tblSample))
        [1, 2, 3, 4] 10 none = Except.ok q ∧
      q.nprobes = some cfgCloudDefault.search_param.nprobes := by
  rintro ⟨q, hEq, hProbes⟩
  have h : q =
      { vector := [1, 2, 3, 4], metric := some "cosine",
        limit := some 10, select := some ["id"] } := by
    simpa [LanceDBCloud.search_embedding, filtersTruthy] using hEq.symm
  subst h
  exact absurd hProbes (by decide)

/-- C4 amended: on an unfiltered `search_embedding` both variants submit
a query with the metric token from `searchParams()`, a limit of `k` and a
projection of only the scalar id field, and return the collaborator's id
column unchanged in the collaborator's ranking order; the local variant
additionally sets the probe count and refine factor from
`searchParams()`, while the cloud variant sets neither. -/
theorem claim_C4_amended (cfg : LanceDBIndexConfig) (ccfg : LanceDBCloudIndexConfig)
    (t : Table) (execQuery : Query → List Int) (query : Embedding) (k : Int) :
    LanceDB.search_run cfg (Attr.present (some t)) execQuery query k none =
      Except.ok (execQuery
        { vector := query,
          metric := some cfg.search_param.metric,
          nprobes := some cfg.search_param.nprobes,
          refineFactor := some cfg.search_param.refine_factor,
          limit := some k,
          select := some [scalar_field] }) ∧
    LanceDBCloud.search_run ccfg (Attr.present (some t)) execQuery query k none =
      Except.ok (execQuery
        { vector := query,
          metric := some ccfg.search_param.metric,
          limit := some k,
          select := some [scalar_field] }) :=
  ⟨rfl, rfl⟩

/-- C5: with a non-empty `filters` dict both variants submit a query
whose where-predicate is exactly the scalar field name, a space, and the
filter's condition string (the value under key metadata), with a limit of
`k`, a projection of only the scalar id field, and no probe-count or
refine-factor tuning (those fields stay unset in the built query). -/
theorem claim_C5_theorem (cfg : LanceDBIndexConfig) (ccfg : LanceDBCloudIndexConfig)
    (t : Table) (query : Embedding) (k : Int) (f : Filters) (cond : String)
    (hne : f ≠ []) (hget : dictGet f "metadata" = some cond) :
    LanceDB.search_embedding cfg (Attr.present (some t)) query k (some f) =
      Except.ok
        { vector := query,
          metric := some cfg.index_param.metric,
          limit := some k,
          select := some [scalar_field],
          whereExpr := some (scalar_field ++ " " ++ cond) } ∧
    LanceDBCloud.search_embedding ccfg (Attr.present (some t)) query k (some f) =
      Except.ok
        { vector := query,
          metric := some ccfg.index_param.metric,
          limit := some k,
          select := some [scalar_field],
          whereExpr := some (scalar_field ++ " " ++ cond) } := by
  obtain ⟨a, l, rfl⟩ := List.exists_cons_of_ne_nil hne
  constructor <;>
    simp [LanceDB.search_embedding, LanceDBCloud.search_embedding, filtersTruthy,
      pyDictGet, hget, pyStr]

/-- C5 witness: the theorem applied to the spec's own scenario, the
filter dict mapping metadata to the condition string. -/
theorem claim_C5_witness :
    LanceDB.search_embedding cfgLocalDefault (Attr.present (some tblSample)) [1] 1
        (some [("metadata", "> 1")]) =
      Except.ok
        { vector := [1],
          metric := some cfgLocalDefault.index_param.metric,
          limit := some 1,
          select := some [scalar_field],
          whereExpr := some (scalar_field ++ " " ++ "> 1") } ∧
    LanceDBCloud.search_embedding cfgCloudDefault (Attr.present (some tblSample)) [1] 1
        (some [("metadata", "> 1")]) =
      Except.ok
        { vector := [1],
          metric := some cfgCloudDefault.index_param.metric,
          limit := some 1,
          select := some [scalar_field],
          whereExpr := some (scalar_field ++ " " ++ "> 1") } :=
  claim_C5_theorem cfgLocalDefault cfgCloudDefault tblSample [1] 1
    [("metadata", "> 1")] "> 1" (by decide) (by decide)

/-- C6: inside an open scope, with equal-length inputs, both variants'
`insert_embeddings` return `(0, some err)` when the collaborator's batch
insert fails with `err` (the exception is caught, not propagated: the
call itself ends normally) and `(len(embeddings), none)` when it
succeeds. -/
theorem claim_C6_theorem (t : Table) (e : List Embedding) (m : List Int)
    (msg : String) (h : e.length = m.length) :
    (LanceDB.insert_embeddings (Attr.present (some t)) (Except.error msg) e m).2 =
      Except.ok (0, some msg) ∧
    (LanceDB.insert_embeddings (Attr.present (some t)) (Except.ok ()) e m).2 =
      Except.ok (e.length, none) ∧
    (LanceDBCloud.insert_embeddings (Attr.present (some t)) (Except.error msg) e m).2 =
      Except.ok (0, some msg) ∧
    (LanceDBCloud.insert_embeddings (Attr.present (some t)) (Except.ok ()) e m).2 =
      Except.ok (e.length, none) := by
  refine ⟨?_, ?_, ?_, ?_⟩ <;>
    simp [LanceDB.insert_embeddings, LanceDBCloud.insert_embeddings, h]

/-- C6 witness: the theorem applied to a two-vector batch with matching
metadata and a concrete collaborator error. -/
theorem claim_C6_witness :
    (LanceDB.insert_embeddings (Attr.present (some tblSample)) (Except.error "boom")
        [[1], [2]] [1, 2]).2 = Except.ok (0, some "boom") ∧
    (LanceDB.insert_embeddings (Attr.present (some tblSample)) (Except.ok ())
        [[1], [2]] [1, 2]).2 = Except.ok (2, none) ∧
    (LanceDBCloud.insert_embeddings (Attr.present (some tblSample)) (Except.error "boom")
        [[1], [2]] [1, 2]).2 = Except.ok (0, some "boom") ∧
    (LanceDBCloud.insert_embeddings (Attr.present (some tblSample)) (Except.ok ())
        [[1], [2]] [1, 2]).2 = Except.ok (2, none) :=
  claim_C6_theorem tblSample [[1], [2]] [1, 2] "boom" (by decide)

/-- C7 counterexample: `search_embedding` called with an empty (`None`)
collection handle fails with an AttributeError, not with an assertion
failure — the method has no assertion, the failure comes from the method
lookup on `None`. -/
theorem claim_C7_counterexample :
    LanceDB.search_embedding cfgLocalDefault (Attr.present none) [1] 10 none =
      Except.error PyError.attributeError ∧
    (Except.error PyError.attributeError : Except PyError Query) ≠
      Except.error PyError.assertionError :=
  ⟨rfl, by simp⟩

/-- C7 amended: called without an open scope (collection handle empty),
`optimize` and `insert_embeddings` fail with an assertion failure in both
variants; `search_embedding` also fails rather than returning a
recoverable value, but with an attribute error, since it performs no
assertion. -/
theorem claim_C7_amended (cfg : LanceDBIndexConfig) (ccfg : LanceDBCloudIndexConfig)
    (addOutcome : Except String Unit) (e : List Embedding) (m : List Int)
    (query : Embedding) (k : Int) (filters : Option Filters) :
    LanceDB.optimize cfg (Attr.present none) = Except.error PyError.assertionError ∧
    (LanceDB.insert_embeddings (Attr.present none) addOutcome e m).2 =
      Except.error PyError.assertionError ∧
    LanceDB.search_embedding cfg (Attr.present none) query k filters =
      Except.error PyError.attributeError ∧
    LanceDBCloud.optimize ccfg (Attr.present none) = Except.error PyError.assertionError ∧
    (LanceDBCloud.insert_embeddings (Attr.present none) addOutcome e m).2 =
      Except.error PyError.assertionError ∧
    LanceDBCloud.search_embedding ccfg (Attr.present none) query k filters =
      Except.error PyError.attributeError :=
  ⟨rfl, rfl, rfl, rfl, rfl, rfl⟩

/-- C8: with mismatched-length embeddings and metadata, both variants'
`insert_embeddings` fail with an assertion failure and submit no batch to
the collaborator (the list of issued batch-insert calls is empty). -/
theorem claim_C8_theorem (t : Table) (addOutcome : Except String Unit)
    (e : List Embedding) (m : List Int) (h : e.length ≠ m.length) :
    LanceDB.insert_embeddings (Attr.present (some t)) addOutcome e m =
      ([], Except.error PyError.assertionError) ∧
    LanceDBCloud.insert_embeddings (Attr.present (some t)) addOutcome e m =
      ([], Except.error PyError.assertionError) := by
  constructor <;>
    simp [LanceDB.insert_embeddings, LanceDBCloud.insert_embeddings, h]

/-- C8 witness: the theorem applied to one embedding and empty
metadata. -/
theorem claim_C8_witness :
    LanceDB.insert_embeddings (Attr.present (some tblSample)) (Except.ok ()) [[1]] [] =
      ([], Except.error PyError.assertionError) ∧
    LanceDBCloud.insert_embeddings (Attr.present (some tblSample)) (Except.ok ()) [[1]] [] =
      ([], Except.error PyError.assertionError) :=
  claim_C8_theorem tblSample (Except.ok ()) [[1]] [] (by decide)

/-- C9: `parse_metric` is total over the metric domain plus the unset
case and agrees between the two config variants: L2 maps to the token
L2, InnerProduct (IP) to dot, and every other value — Cosine, unset, or
anything that is neither L2 nor IP — to cosine. -/
theorem claim_C9_theorem :
    (∀ m : Option MetricType,
      LanceDBIndexConfig.parse_metric { metric_type := m } =
        LanceDBCloudIndexConfig.parse_metric { metric_type := m }) ∧
    LanceDBIndexConfig.parse_metric { metric_type := some MetricType.L2 } = "L2" ∧
    LanceDBIndexConfig.parse_metric { metric_type := some MetricType.IP } = "dot" ∧
    LanceDBIndexConfig.parse_metric { metric_type := some MetricType.COSINE } = "cosine" ∧
    LanceDBIndexConfig.parse_metric { metric_type := none } = "cosine" ∧
    (∀ m : Option MetricType, m ≠ some MetricType.L2 → m ≠ some MetricType.IP →
      LanceDBIndexConfig.parse_metric { metric_type := m } = "cosine") := by
  refine ⟨?_, rfl, rfl, rfl, rfl, ?_⟩
  · rintro (_ | ⟨_ | _ | _⟩) <;> rfl
  · intro m h1 h2
    simp [LanceDBIndexConfig.parse_metric, h1, h2]

/-- C9 witness: the fallback clause of the theorem applied at the unset
metric value. -/
theorem claim_C9_witness :
    LanceDBIndexConfig.parse_metric { metric_type := none } = "cosine" :=
  claim_C9_theorem.2.2.2.2.2 none (by decide) (by decide)

/-- C10: with `filters` present but empty, `if filters:` is falsy, so
both variants take the unfiltered branch: the built query has no
where-restriction and carries the `searchParams()` tuning, exactly as
with `filters` absent. -/
theorem claim_C10_theorem (cfg : LanceDBIndexConfig) (ccfg : LanceDBCloudIndexConfig)
    (t : Table) (query : Embedding) (k : Int) :
    LanceDB.search_embedding cfg (Attr.present (some t)) query k (some []) =
      LanceDB.search_embedding cfg (Attr.present (some t)) query k none ∧
    LanceDB.search_embedding cfg (Attr.present (some t)) query k (some []) =
      Except.ok
        { vector := query,
          metric := some cfg.search_param.metric,
          nprobes := some cfg.search_param.nprobes,
          refineFactor := some cfg.search_param.refine_factor,
          limit := some k,
          select := some [scalar_field] } ∧
    LanceDBCloud.search_embedding ccfg (Attr.present (some t)) query k (some []) =
      LanceDBCloud.search_embedding ccfg (Attr.present (some t)) query k none ∧
    LanceDBCloud.search_embedding ccfg (Attr.present (some t)) query k (some []) =
      Except.ok
        { vector := query,
          metric := some ccfg.search_param.metric,
          limit := some k,
          select := some [scalar_field] } :=
  ⟨rfl, rfl, rfl, rfl⟩
